import Mathlib

/-!
Verification of the duplicate-contact merge tool (`src/devrev_merge.py`)
against its specification.

The development shallowly embeds the pure decision logic of the script:
  * `Contact` and its marker predicates (`is_revu_contact`, `is_user_contact`),
  * the Duplicate Resolver (`ContactMerger.identify_duplicates`),
  * the Progress Ledger (`SavePoint`),
  * post-merge verification (`DevRevAPI.verify_merge`),
  * the per-pair merge orchestration (`ContactMerger.merge_contacts`),
  * the bounded-retry request loop (`DevRevAPI.make_request`).
Remote calls are modelled by an oracle environment (`ApiEnv`) recording, for
each call the orchestrator may issue, whether it succeeds; the orchestration
function returns both the updated in-memory state and a trace of which calls
were issued, so that gating behaviour ("no merge call after a failed backup")
is expressible.
-/

/-- Python `str.lower()` on a prefix-closed character list
(`"x".lower()` lowercases each character). -/
def lowerChars (l : List Char) : List Char := l.map Char.toLower

/-- Python `str.lower()`. -/
def strLower (s : String) : String := String.mk (lowerChars s.data)

/-- Helper for Python `str.startswith`: does the first list occur at the
head of the second? -/
def startsWithChars : List Char → List Char → Bool
  | [], _ => true
  | _ :: _, [] => false
  | p :: ps, c :: cs => p == c && startsWithChars ps cs

/-- Python `s.startswith(p)`. -/
def strStartsWith (s p : String) : Bool := startsWithChars p.data s.data

/-- One row of input data (`Contact` dataclass, devrev_merge.py lines 57-68).
`ticket_count` is a Python `int`, hence `Int`. -/
structure Contact where
  rev_user_id : String
  display_name : String
  email : String
  external_ref : String
  full_name : String
  ticket_count : Int
  created_at : String
  updated_at : String
deriving DecidableEq

/-- `Contact.is_revu_contact` (lines 98-100): Python
`self.external_ref and self.external_ref.startswith("REVU-")` used as a
boolean, i.e. non-empty and carrying the `REVU-` marker. -/
def Contact.is_revu_contact (c : Contact) : Bool :=
  (c.external_ref != "") && strStartsWith c.external_ref "REVU-"

/-- `Contact.is_user_contact` (lines 102-104). -/
def Contact.is_user_contact (c : Contact) : Bool :=
  (c.external_ref != "") && strStartsWith c.external_ref "user_"

/-- The `rev_user` object inside a `/rev-users.get` response body; only the
`state` field is consulted by `verify_merge`. `none` models a missing
`"state"` key (Python `rev_user.get("state", "")`). -/
structure RevUser where
  state : Option String
deriving DecidableEq

/-- A `/rev-users.get` response body. `rev_user = none` models a body
lacking the `"rev_user"` key (Python `user_data.get("rev_user")`). -/
structure LookupBody where
  rev_user : Option RevUser
deriving DecidableEq

/-- `DevRevAPI.verify_merge` (lines 269-294). The argument is the result of
`quick_user_lookup`: `none` for a 404 (or transport error), `some body`
for a 200 with the given JSON body. -/
def verify_merge (user_data : Option LookupBody) : Bool :=
  match user_data with
  | none => true
  | some body =>
    match body.rev_user with
    | none => true
    | some u =>
      let state := strLower (u.state.getD "")
      state == "deleted" || state == "locked" || state == "shadow" || state == "archived"

/-- In-memory and on-disk state of `SavePoint` (lines 322-363).
`disk` is the content last successfully written to `savepoint.json`
(`none` when no write has succeeded yet). -/
structure SavePointState where
  processed_pairs : List (String × String)
  disk : Option (List (String × String))
deriving DecidableEq

/-- `SavePoint.save` (lines 341-354): writes the in-memory set to disk; a
write error is caught and logged, leaving the state unchanged. `writeOk`
says whether the write succeeds. -/
def SavePoint.save (writeOk : Bool) (st : SavePointState) : SavePointState :=
  if writeOk then { st with disk := some st.processed_pairs } else st

/-- `SavePoint.add_processed_pair` (lines 356-359): add to the in-memory
set, then persist. The Python set is modelled as a list with membership
semantics. -/
def SavePoint.add_processed_pair (writeOk : Bool) (st : SavePointState)
    (primary_id duplicate_id : String) : SavePointState :=
  SavePoint.save writeOk
    { st with processed_pairs := (primary_id, duplicate_id) :: st.processed_pairs }

/-- `SavePoint.is_processed` (lines 361-363). -/
def SavePoint.is_processed (st : SavePointState) (primary_id duplicate_id : String) : Bool :=
  decide ((primary_id, duplicate_id) ∈ st.processed_pairs)

/-- One step of the grouping loop in `identify_duplicates` (lines 388-390):
`contact_groups.setdefault(key, []).append(c)` on an insertion-ordered
dict, modelled as an association list that appends new keys at the end. -/
def addToGroups (gs : List (String × List Contact)) (key : String) (c : Contact) :
    List (String × List Contact) :=
  match gs with
  | [] => [(key, [c])]
  | (k, cs) :: rest =>
    if k = key then (k, cs ++ [c]) :: rest else (k, cs) :: addToGroups rest key c

/-- Grouping of contacts by lowercased email (lines 385-390), preserving
first-seen key order as a Python dict does. -/
def groupByEmail (contacts : List Contact) : List (String × List Contact) :=
  contacts.foldl (fun gs c => addToGroups gs (strLower c.email) c) []

/-- One step of the marker scan (lines 403-407): reassignment of
`revu_contact` / `user_contact`, so a later match overwrites an earlier
one; the `elif` means a REVU- contact is never also taken as the user_
candidate. -/
def scanStep (acc : Option Contact × Option Contact) (c : Contact) :
    Option Contact × Option Contact :=
  if c.is_revu_contact then (some c, acc.2)
  else if c.is_user_contact then (acc.1, some c)
  else acc

/-- The scan over one email group (lines 400-407), returning the final
values of `revu_contact` and `user_contact`. -/
def scanMarkers (group : List Contact) : Option Contact × Option Contact :=
  group.foldl scanStep (none, none)

/-- Resolution of one email group (lines 396-414): groups of size < 2 are
ignored; when both markers were found and the id pair is not in the
ledger, the pair `(revu_contact, user_contact)` is emitted. -/
def resolveGroup (sp : List (String × String)) (group : List Contact) :
    Option (Contact × Contact) :=
  if group.length < 2 then none
  else
    match (scanMarkers group).1, (scanMarkers group).2 with
    | some rc, some uc =>
      if (rc.rev_user_id, uc.rev_user_id) ∈ sp then none else some (rc, uc)
    | _, _ => none

/-- `ContactMerger.identify_duplicates` (lines 378-416), parameterised by
the ledger's set of processed id pairs. -/
def identify_duplicates (sp : List (String × String)) (contacts : List Contact) :
    List (Contact × Contact) :=
  (groupByEmail contacts).filterMap (fun kg => resolveGroup sp kg.2)

/-- The groups logged as skipped by `identify_duplicates` (lines 412-414):
groups of size ≥ 2 in which at least one marker kind was not found,
together with the external_ref values logged for them. Ledger-based skips
are not logged. -/
def skipped_groups (contacts : List Contact) : List (String × List String) :=
  (groupByEmail contacts).filterMap (fun kg =>
    if kg.2.length < 2 then none
    else
      match (scanMarkers kg.2).1, (scanMarkers kg.2).2 with
      | some _, some _ => none
      | _, _ => some (kg.1, kg.2.map (fun c => c.external_ref)))

/-- Oracle for the remote calls `ContactMerger.merge_contacts` can issue:
whether backing up a given contact succeeds (`DevRevAPI.backup_contact_data`
returns a bool), whether the merge call succeeds
(`DevRevAPI.merge_contacts`), the body `quick_user_lookup` returns for a
given id, and whether `DevRevAPI.update_external_ref` succeeds for given
arguments. -/
structure ApiEnv where
  backupOk : Contact → Bool
  mergeOk : String → String → Bool
  lookup : String → Option LookupBody
  updateRefOk : String → String → Bool

/-- In-memory state of a `ContactMerger` run: the ledger's processed pairs
plus the two accumulated report lists (lines 373-375). -/
structure MergeState where
  savepoint : List (String × String)
  merged_pairs : List (Contact × Contact)
  failed_merges : List (Contact × Contact × String)
deriving DecidableEq

/-- Result of one `ContactMerger.merge_contacts` call: the returned bool,
the updated state, and a trace of the remote mutations issued —
whether the merge endpoint was called, the verification outcome observed
(if reached), and the `update_external_ref` call's arguments and outcome
(if issued). -/
structure MergeResult where
  ok : Bool
  st : MergeState
  mergeCalled : Bool
  verifyResult : Option Bool
  updateRefCall : Option (String × String)
  updateRefSucceeded : Option Bool
deriving DecidableEq

/-- `ContactMerger.merge_contacts` (lines 462-518). The explicit `raise`s
for failed backups and a failed merge call are the only exceptions the
`try` block can see (every API helper catches its own errors and returns
a bool), so the embedding branches exactly on those three checks; the
backup-integrity check (step 2) only logs and is stateless here. On
success the pair is added to the ledger (line 510) and to
`merged_pairs` (line 511); on failure it is appended to `failed_merges`
with the exception text (line 516). -/
def mergeContacts (env : ApiEnv) (preview : Bool) (st : MergeState)
    (primary duplicate : Contact) : MergeResult :=
  if preview then
    { ok := true, st := st, mergeCalled := false, verifyResult := none,
      updateRefCall := none, updateRefSucceeded := none }
  else if env.backupOk primary = false then
    { ok := false,
      st := { st with failed_merges := st.failed_merges ++
        [(primary, duplicate, "Failed to backup primary contact data - aborting merge")] },
      mergeCalled := false, verifyResult := none,
      updateRefCall := none, updateRefSucceeded := none }
  else if env.backupOk duplicate = false then
    { ok := false,
      st := { st with failed_merges := st.failed_merges ++
        [(primary, duplicate, "Failed to backup duplicate contact data - aborting merge")] },
      mergeCalled := false, verifyResult := none,
      updateRefCall := none, updateRefSucceeded := none }
  else if env.mergeOk primary.rev_user_id duplicate.rev_user_id = false then
    { ok := false,
      st := { st with failed_merges := st.failed_merges ++
        [(primary, duplicate, "Failed to merge contacts (API call returned false)")] },
      mergeCalled := true, verifyResult := none,
      updateRefCall := none, updateRefSucceeded := none }
  else
    { ok := true,
      st := { st with
        savepoint := (primary.rev_user_id, duplicate.rev_user_id) :: st.savepoint,
        merged_pairs := st.merged_pairs ++ [(primary, duplicate)] },
      mergeCalled := true,
      verifyResult := some (verify_merge (env.lookup duplicate.rev_user_id)),
      updateRefCall := some (primary.rev_user_id, duplicate.external_ref),
      updateRefSucceeded := some (env.updateRefOk primary.rev_user_id duplicate.external_ref) }

/-- One non-preview batch over a contact list
(`ContactMerger.process_csv`, lines 668-682): resolve duplicates once
against the starting ledger, then run `merge_contacts` on each pair in
order. -/
def runBatch (env : ApiEnv) (st : MergeState) (contacts : List Contact) : MergeState :=
  (identify_duplicates st.savepoint contacts).foldl
    (fun s pr => (mergeContacts env false s pr.1 pr.2).st) st

/-- `DevRevAPI.max_retries` (line 131). -/
def max_retries : Nat := 3

/-- `DevRevAPI.retry_delay`, in seconds (line 132). -/
def retry_delay : Nat := 2

/-- The status codes `make_request` treats as retryable (line 153). -/
def retryableStatus (code : Nat) : Bool :=
  code == 429 || code == 500 || code == 502 || code == 503 || code == 504

/-- Result of `make_request`: either a response was returned (recording on
which attempt, 0-based) or an error surfaced (recording the offending
status code); both carry the list of backoff sleeps performed, in
seconds. -/
inductive ReqOutcome where
  | success (attempt : Nat) (delays : List Nat)
  | failure (code : Nat) (delays : List Nat)
deriving DecidableEq

/-- `DevRevAPI.make_request` (lines 136-166), abstracting the transport as
the status code returned on each attempt. A retryable status raises
`RetryableError`, which is re-tried with sleep
`retry_delay * 2 ** retry_count` while `retry_count < max_retries` and
re-raised once the budget is exhausted; any other non-2xx status raises
via `raise_for_status` and propagates immediately. -/
def make_request (responses : Nat → Nat) (retry_count : Nat) : ReqOutcome :=
  let code := responses retry_count
  if retryableStatus code then
    if _h : retry_count < max_retries then
      let sleep_time := retry_delay * 2 ^ retry_count
      match make_request responses (retry_count + 1) with
      | .success a ds => .success a (sleep_time :: ds)
      | .failure c ds => .failure c (sleep_time :: ds)
    else .failure code []
  else if 400 ≤ code then .failure code []
  else .success retry_count []
termination_by max_retries - retry_count
decreasing_by omega

/-- The contact of the spec's scenario with the native-style marker:
`{id:A, email:"x@y.com", ref:"user_1", tickets:5}`. -/
def cA : Contact := ⟨"A", "Ann", "x@y.com", "user_1", "Ann", 5, "", ""⟩

/-- The contact of the spec's scenario with the imported-style marker:
`{id:B, email:"x@y.com", ref:"REVU-9", tickets:3}`. -/
def cB : Contact := ⟨"B", "Bea", "x@y.com", "REVU-9", "Bea", 3, "", ""⟩

/-- A second contact carrying a `REVU-` marker on the same email, for the
ambiguous-group scenario. -/
def cC : Contact := ⟨"C", "Cal", "x@y.com", "REVU-7", "Cal", 2, "", ""⟩

/-- The empty starting state of a `ContactMerger`. -/
def st0 : MergeState := ⟨[], [], []⟩

/-- An environment in which every remote call succeeds and the retired
record can no longer be found (404 on lookup). -/
def allOkEnv : ApiEnv :=
  ⟨fun _ => true, fun _ _ => true, fun _ => none, fun _ _ => true⟩

/-- An environment in which every backup fails. -/
def envBackupFail : ApiEnv :=
  ⟨fun _ => false, fun _ _ => true, fun _ => none, fun _ _ => true⟩

/-- An environment in which everything succeeds except the
`update_external_ref` call. -/
def envUpdateFail : ApiEnv :=
  ⟨fun _ => true, fun _ _ => true, fun _ => none, fun _ _ => false⟩

/-- An environment in which the post-merge lookup still finds the retired
record in the `active` state. -/
def envActive : ApiEnv :=
  ⟨fun _ => true, fun _ _ => true, fun _ => some ⟨some ⟨some "active"⟩⟩, fun _ _ => true⟩

/-- A marker-less contact on a shared email, for the skipped-group case. -/
def cN1 : Contact := ⟨"N1", "Nia", "n@n", "", "Nia", 0, "", ""⟩

/-- A second marker-less contact on the same email as `cN1`. -/
def cN2 : Contact := ⟨"N2", "Ned", "n@n", "", "Ned", 0, "", ""⟩

/-- A transport that always answers 404 (permanent error). -/
def respPerm : Nat → Nat := fun _ => 404

/-- A transport that always answers 429 (rate-limited). -/
def respRetryAll : Nat → Nat := fun _ => 429

/-- A transport that answers 429 twice, then 200. -/
def respEventual : Nat → Nat := fun i => if i < 2 then 429 else 200

/-- C9: a post-merge lookup body that lacks the `rev_user` key is treated
by `verify_merge` as a successful merge. -/
theorem verify_merge_missing_rev_user : verify_merge (some ⟨none⟩) = true := rfl

/-- C10: marking a pair as processed adds it to the in-memory set whether
or not the durable write succeeds (the write error is caught inside
`save`), so `is_processed` answers true for that pair afterwards either
way. -/
theorem add_processed_pair_in_memory (writeOk : Bool) (st : SavePointState)
    (p d : String) :
    SavePoint.is_processed (SavePoint.add_processed_pair writeOk st p d) p d = true ∧
    (SavePoint.add_processed_pair writeOk st p d).processed_pairs =
      (p, d) :: st.processed_pairs := by
  cases writeOk <;>
    simp [SavePoint.is_processed, SavePoint.add_processed_pair, SavePoint.save]

/-- C3: if the backup of either record fails, the merge endpoint is never
called for the pair, the ledger is unchanged, the call returns failure,
and the recorded failure reason names which record's backup failed (the
primary is checked first). -/
theorem backup_failure_gates (env : ApiEnv) (st : MergeState)
    (primary duplicate : Contact)
    (h : env.backupOk primary = false ∨ env.backupOk duplicate = false) :
    (mergeContacts env false st primary duplicate).ok = false ∧
    (mergeContacts env false st primary duplicate).mergeCalled = false ∧
    (mergeContacts env false st primary duplicate).st.savepoint = st.savepoint ∧
    (mergeContacts env false st primary duplicate).st.failed_merges =
      st.failed_merges ++ [(primary, duplicate,
        if env.backupOk primary = false then
          "Failed to backup primary contact data - aborting merge"
        else
          "Failed to backup duplicate contact data - aborting merge")] := by
  rcases h with h | h
  · simp [mergeContacts, h]
  · cases hp : env.backupOk primary <;> simp [mergeContacts, hp, h]

/-- Witness for C3 at a concrete input: with every backup failing, the
pair `(cB, cA)` fails without a merge call, the ledger stays empty and
the reason blames the primary record's backup. -/
theorem backup_failure_gates_witness :
    (mergeContacts envBackupFail false st0 cB cA).ok = false ∧
    (mergeContacts envBackupFail false st0 cB cA).mergeCalled = false ∧
    (mergeContacts envBackupFail false st0 cB cA).st.savepoint = [] ∧
    (mergeContacts envBackupFail false st0 cB cA).st.failed_merges =
      [(cB, cA, "Failed to backup primary contact data - aborting merge")] := by
  have h := backup_failure_gates envBackupFail st0 cB cA (Or.inl rfl)
  exact ⟨h.1, h.2.1, h.2.2.1, h.2.2.2⟩

/-- C4: if the backups and the merge call succeed but the
`update_external_ref` call fails, the pair is still recorded as a
success, the ledger gains the pair, and only the trace records the
reconcile failure. -/
theorem reconcile_failure_still_success (env : ApiEnv) (st : MergeState)
    (primary duplicate : Contact)
    (hb1 : env.backupOk primary = true) (hb2 : env.backupOk duplicate = true)
    (hm : env.mergeOk primary.rev_user_id duplicate.rev_user_id = true)
    (hu : env.updateRefOk primary.rev_user_id duplicate.external_ref = false) :
    (mergeContacts env false st primary duplicate).ok = true ∧
    (mergeContacts env false st primary duplicate).updateRefSucceeded = some false ∧
    (mergeContacts env false st primary duplicate).st.savepoint =
      (primary.rev_user_id, duplicate.rev_user_id) :: st.savepoint ∧
    (mergeContacts env false st primary duplicate).st.merged_pairs =
      st.merged_pairs ++ [(primary, duplicate)] := by
  simp [mergeContacts, hb1, hb2, hm, hu]

/-- Witness for C4 at a concrete input: with only the reconcile call
failing, merging `(cB, cA)` is reported as a success and the pair is
added to the ledger. -/
theorem reconcile_failure_still_success_witness :
    (mergeContacts envUpdateFail false st0 cB cA).ok = true ∧
    (mergeContacts envUpdateFail false st0 cB cA).updateRefSucceeded = some false ∧
    (mergeContacts envUpdateFail false st0 cB cA).st.savepoint = [("B", "A")] ∧
    (mergeContacts envUpdateFail false st0 cB cA).st.merged_pairs = [(cB, cA)] := by
  have h := reconcile_failure_still_success envUpdateFail st0 cB cA rfl rfl rfl rfl
  exact ⟨h.1, h.2.1, h.2.2.1, h.2.2.2⟩

/-- C7: for a well-formed lookup result (a found record carries a
`rev_user` object), post-merge verification succeeds exactly when the
record is not found or its state is one of deleted, locked, shadow,
archived (case-insensitively); and when the orchestrator reaches the
verification step, a negative verification does not abort the pair: the
`update_external_ref` call is still issued and the pair still succeeds. -/
theorem verify_merge_characterization (r : Option LookupBody)
    (hwf : ∀ b, r = some b → b.rev_user ≠ none)
    (env : ApiEnv) (st : MergeState) (primary duplicate : Contact)
    (hb1 : env.backupOk primary = true) (hb2 : env.backupOk duplicate = true)
    (hm : env.mergeOk primary.rev_user_id duplicate.rev_user_id = true)
    (hl : env.lookup duplicate.rev_user_id = r) :
    (verify_merge r = true ↔
      (r = none ∨ ∃ u, r = some ⟨some u⟩ ∧
        (strLower (u.state.getD "") = "deleted" ∨
         strLower (u.state.getD "") = "locked" ∨
         strLower (u.state.getD "") = "shadow" ∨
         strLower (u.state.getD "") = "archived"))) ∧
    (mergeContacts env false st primary duplicate).verifyResult = some (verify_merge r) ∧
    (mergeContacts env false st primary duplicate).ok = true ∧
    (mergeContacts env false st primary duplicate).updateRefCall =
      some (primary.rev_user_id, duplicate.external_ref) := by
  refine ⟨?_, ?_, ?_, ?_⟩
  · match r with
    | none => simp [verify_merge]
    | some body =>
      match hb : body.rev_user with
      | none => exact absurd hb (hwf body rfl)
      | some u =>
        simp only [verify_merge, hb]
        constructor
        · intro ht
          refine Or.inr ⟨u, ?_, ?_⟩
          · cases body; simp_all
          · simp only [Bool.or_eq_true, beq_iff_eq] at ht
            tauto
        · rintro (hc | ⟨u', hu', hc⟩)
          · exact absurd hc (by simp)
          · have : body = ⟨some u'⟩ := by injection hu'
            have hu : u = u' := by
              cases body
              simp_all
            subst hu
            simp only [Bool.or_eq_true, beq_iff_eq]
            tauto
  · simp [mergeContacts, hb1, hb2, hm, hl]
  · simp [mergeContacts, hb1, hb2, hm]
  · simp [mergeContacts, hb1, hb2, hm]

/-- Witness for C7 at a concrete input: the lookup finds the retired
record still `active`, verification is negative, yet the pair succeeds
and the reconcile call is still issued. -/
theorem verify_merge_characterization_witness :
    ¬ (verify_merge (some ⟨some ⟨some "active"⟩⟩) = true ↔
      ((some ⟨some ⟨some "active"⟩⟩ : Option LookupBody) = none ∨
        ∃ u, (some ⟨some ⟨some "active"⟩⟩ : Option LookupBody) = some ⟨some u⟩ ∧
          (strLower (u.state.getD "") = "deleted" ∨
           strLower (u.state.getD "") = "locked" ∨
           strLower (u.state.getD "") = "shadow" ∨
           strLower (u.state.getD "") = "archived"))) ∨
    ((mergeContacts envActive false st0 cB cA).verifyResult = some false ∧
     (mergeContacts envActive false st0 cB cA).ok = true ∧
     (mergeContacts envActive false st0 cB cA).updateRefCall = some ("B", "user_1")) := by
  have h := verify_merge_characterization (some ⟨some ⟨some "active"⟩⟩)
    (by intro b hb; injection hb with hb; subst hb; simp)
    envActive st0 cB cA rfl rfl rfl rfl
  exact Or.inr ⟨by simpa using h.2.1, h.2.2.1, h.2.2.2⟩

/-- Evaluation lemma: a non-retryable error status propagates at once. -/
theorem make_request_nonretryable (responses : Nat → Nat) (rc : Nat)
    (h : retryableStatus (responses rc) = false) (h4 : 400 ≤ responses rc) :
    make_request responses rc = .failure (responses rc) [] := by
  rw [make_request]
  simp [h, h4]

/-- Evaluation lemma: a retryable status with budget left sleeps and
recurses; failing recursion result. -/
theorem make_request_step_fail (responses : Nat → Nat) (rc c : Nat) (ds : List Nat)
    (h : retryableStatus (responses rc) = true) (hlt : rc < max_retries)
    (hrec : make_request responses (rc + 1) = .failure c ds) :
    make_request responses rc = .failure c (retry_delay * 2 ^ rc :: ds) := by
  rw [make_request]
  simp [h, hlt, hrec]

/-- Evaluation lemma: a retryable status with budget left sleeps and
recurses; succeeding recursion result. -/
theorem make_request_step_succ (responses : Nat → Nat) (rc a : Nat) (ds : List Nat)
    (h : retryableStatus (responses rc) = true) (hlt : rc < max_retries)
    (hrec : make_request responses (rc + 1) = .success a ds) :
    make_request responses rc = .success a (retry_delay * 2 ^ rc :: ds) := by
  rw [make_request]
  simp [h, hlt, hrec]

/-- Evaluation lemma: a retryable status with the retry budget exhausted
re-raises. -/
theorem make_request_exhausted (responses : Nat → Nat) (rc : Nat)
    (h : retryableStatus (responses rc) = true) (hge : ¬ rc < max_retries) :
    make_request responses rc = .failure (responses rc) [] := by
  rw [make_request]
  simp [h, hge]

/-- Evaluation lemma: a non-error status returns at once. -/
theorem make_request_ok (responses : Nat → Nat) (rc : Nat)
    (h : retryableStatus (responses rc) = false) (h2 : ¬ 400 ≤ responses rc) :
    make_request responses rc = .success rc [] := by
  rw [make_request]
  simp [h, h2]

/-- C8: transient statuses (429 / 5xx) are retried with exponentially
increasing backoff (2 s, 4 s, 8 s, i.e. `retry_delay * 2 ^ attempt`) for
at most `max_retries` extra attempts, after which the error surfaces;
any other error status propagates immediately with no retry; a transient
status that clears within the budget lets the request succeed. -/
theorem make_request_retry_spec (responses : Nat → Nat) :
    (retryableStatus (responses 0) = false → 400 ≤ responses 0 →
      make_request responses 0 = .failure (responses 0) []) ∧
    ((∀ i, retryableStatus (responses i) = true) →
      make_request responses 0 = .failure (responses 3) [2, 4, 8]) ∧
    (retryableStatus (responses 0) = true → retryableStatus (responses 1) = true →
      retryableStatus (responses 2) = false → responses 2 < 400 →
      make_request responses 0 = .success 2 [2, 4]) := by
  refine ⟨fun h h4 => make_request_nonretryable responses 0 h h4, ?_, ?_⟩
  · intro hall
    have e3 : make_request responses 3 = .failure (responses 3) [] :=
      make_request_exhausted responses 3 (hall 3) (by norm_num [max_retries])
    have e2 : make_request responses 2 = .failure (responses 3) [8] := by
      have h := make_request_step_fail responses 2 (responses 3) []
        (hall 2) (by norm_num [max_retries]) e3
      norm_num [retry_delay] at h
      exact h
    have e1 : make_request responses 1 = .failure (responses 3) [4, 8] := by
      have h := make_request_step_fail responses 1 (responses 3) [8]
        (hall 1) (by norm_num [max_retries]) e2
      norm_num [retry_delay] at h
      exact h
    have e0 := make_request_step_fail responses 0 (responses 3) [4, 8]
      (hall 0) (by norm_num [max_retries]) e1
    norm_num [retry_delay] at e0
    exact e0
  · intro h0 h1 h2r h2lt
    have e2 : make_request responses 2 = .success 2 [] :=
      make_request_ok responses 2 h2r (by omega)
    have e1 : make_request responses 1 = .success 2 [4] := by
      have h := make_request_step_succ responses 1 2 []
        h1 (by norm_num [max_retries]) e2
      norm_num [retry_delay] at h
      exact h
    have e0 := make_request_step_succ responses 0 2 [4]
      h0 (by norm_num [max_retries]) e1
    norm_num [retry_delay] at e0
    exact e0

/-- Witness for C8 at concrete transports: a 404 fails at once with no
backoff; an unending 429 fails after backoffs of 2, 4, 8 seconds; a 429
that clears on the third attempt succeeds. -/
theorem make_request_retry_spec_witness :
    make_request respPerm 0 = .failure 404 [] ∧
    make_request respRetryAll 0 = .failure 429 [2, 4, 8] ∧
    make_request respEventual 0 = .success 2 [2, 4] := by
  refine ⟨(make_request_retry_spec respPerm).1 rfl (by norm_num [respPerm]), ?_, ?_⟩
  · exact (make_request_retry_spec respRetryAll).2.1 (fun i => rfl)
  · exact (make_request_retry_spec respEventual).2.2 rfl rfl rfl (by norm_num [respEventual])

/-- A string carrying the `REVU-` marker cannot also carry the `user_`
marker. -/
theorem startsWith_revu_not_user (s : String)
    (h : strStartsWith s "REVU-" = true) : strStartsWith s "user_" = false := by
  unfold strStartsWith at h ⊢
  have hR : ("REVU-" : String).data = ['R', 'E', 'V', 'U', '-'] := rfl
  have hU : ("user_" : String).data = ['u', 's', 'e', 'r', '_'] := rfl
  rw [hR] at h
  rw [hU]
  cases hs : s.data with
  | nil => rw [hs] at h; simp [startsWithChars] at h
  | cons c cs =>
    rw [hs] at h
    simp only [startsWithChars, Bool.and_eq_true, beq_iff_eq] at h
    obtain ⟨hc, -⟩ := h
    subst hc
    have hne : (('u' : Char) == 'R') = false := by decide
    simp [startsWithChars, hne]

/-- The final `revu_contact` of the scan is either inherited from the
accumulator or a REVU--marked member of the group. -/
theorem scan_fst_mem (g : List Contact) :
    ∀ (acc : Option Contact × Option Contact) (rc : Contact),
      (g.foldl scanStep acc).1 = some rc →
      acc.1 = some rc ∨ (rc ∈ g ∧ rc.is_revu_contact = true) := by
  induction g with
  | nil => exact fun acc rc h => Or.inl h
  | cons c g ih =>
    intro acc rc h
    rw [List.foldl_cons] at h
    rcases ih (scanStep acc c) rc h with ih' | ⟨hmem, hrevu⟩
    · unfold scanStep at ih'
      split_ifs at ih' with h1 h2
      · simp only at ih'
        right
        injection ih' with ih'
        exact ⟨by rw [← ih']; exact List.mem_cons_self c g, by rw [← ih']; exact h1⟩
      · exact Or.inl ih'
      · exact Or.inl ih'
    · exact Or.inr ⟨List.mem_cons_of_mem c hmem, hrevu⟩

/-- The final `user_contact` of the scan is either inherited from the
accumulator or a user_-marked, not REVU--marked, member of the group
(the `elif` never assigns a REVU- contact here). -/
theorem scan_snd_mem (g : List Contact) :
    ∀ (acc : Option Contact × Option Contact) (uc : Contact),
      (g.foldl scanStep acc).2 = some uc →
      acc.2 = some uc ∨
        (uc ∈ g ∧ uc.is_user_contact = true ∧ uc.is_revu_contact = false) := by
  induction g with
  | nil => exact fun acc uc h => Or.inl h
  | cons c g ih =>
    intro acc uc h
    rw [List.foldl_cons] at h
    rcases ih (scanStep acc c) uc h with ih' | ⟨hmem, huser, hnrevu⟩
    · unfold scanStep at ih'
      split_ifs at ih' with h1 h2
      · exact Or.inl ih'
      · simp only at ih'
        right
        injection ih' with ih'
        refine ⟨by rw [← ih']; exact List.mem_cons_self c g, by rw [← ih']; exact h2, ?_⟩
        rw [← ih']
        exact Bool.eq_false_iff.mpr h1
      · exact Or.inl ih'
    · exact Or.inr ⟨List.mem_cons_of_mem c hmem, huser, hnrevu⟩

/-- Both scan results, starting from the empty accumulator, are members of
the group with the expected markers. -/
theorem scanMarkers_spec (g : List Contact) (rc uc : Contact)
    (h1 : (scanMarkers g).1 = some rc) (h2 : (scanMarkers g).2 = some uc) :
    rc ∈ g ∧ rc.is_revu_contact = true ∧
    uc ∈ g ∧ uc.is_user_contact = true ∧ uc.is_revu_contact = false := by
  rcases scan_fst_mem g (none, none) rc h1 with hf | ⟨hm1, hr1⟩
  · exact absurd hf (by simp)
  rcases scan_snd_mem g (none, none) uc h2 with hs | ⟨hm2, hu2, hn2⟩
  · exact absurd hs (by simp)
  exact ⟨hm1, hr1, hm2, hu2, hn2⟩

/-- Every member of every group produced by `groupByEmail` has the group's
key as its lowercased email. -/
def groupsWellKeyed (gs : List (String × List Contact)) : Prop :=
  ∀ kg ∈ gs, ∀ c ∈ kg.2, strLower c.email = kg.1

/-- `addToGroups` preserves well-keyedness. -/
theorem addToGroups_wellKeyed (gs : List (String × List Contact)) (key : String)
    (c : Contact) (hg : groupsWellKeyed gs) (hc : strLower c.email = key) :
    groupsWellKeyed (addToGroups gs key c) := by
  induction gs with
  | nil =>
    intro kg hkg x hx
    simp only [addToGroups, List.mem_singleton] at hkg
    subst hkg
    simp only [List.mem_singleton] at hx
    subst hx
    exact hc
  | cons kg0 rest ih =>
    obtain ⟨k, cs⟩ := kg0
    intro kg hkg x hx
    unfold addToGroups at hkg
    split_ifs at hkg with hk
    · rcases List.mem_cons.mp hkg with hkg | hkg
      · subst hkg
        rcases List.mem_append.mp hx with hx | hx
        · exact hg (k, cs) (List.mem_cons_self _ _) x hx
        · simp only [List.mem_singleton] at hx
          subst hx
          rw [hc, hk]
      · exact hg kg (List.mem_cons_of_mem _ hkg) x hx
    · rcases List.mem_cons.mp hkg with hkg | hkg
      · subst hkg
        exact hg (k, cs) (List.mem_cons_self _ _) x hx
      · exact ih (fun kg' hkg' => hg kg' (List.mem_cons_of_mem _ hkg')) kg hkg x hx

/-- The grouping fold preserves well-keyedness. -/
theorem groupByEmail_fold_wellKeyed (contacts : List Contact) :
    ∀ gs, groupsWellKeyed gs →
      groupsWellKeyed
        (contacts.foldl (fun gs c => addToGroups gs (strLower c.email) c) gs) := by
  induction contacts with
  | nil => exact fun gs hg => hg
  | cons c contacts ih =>
    intro gs hg
    rw [List.foldl_cons]
    exact ih _ (addToGroups_wellKeyed gs (strLower c.email) c hg rfl)

/-- `groupByEmail` is well-keyed. -/
theorem groupByEmail_wellKeyed (contacts : List Contact) :
    groupsWellKeyed (groupByEmail contacts) :=
  groupByEmail_fold_wellKeyed contacts [] (by intro kg hkg; simp at hkg)

/-- Characterization of when a group resolves to a pair: the group has at
least two records, the scan found both markers, and the id pair is not in
the ledger. -/
theorem resolveGroup_eq_some (sp : List (String × String)) (g : List Contact)
    (pr : Contact × Contact) :
    resolveGroup sp g = some pr ↔
      2 ≤ g.length ∧ (scanMarkers g).1 = some pr.1 ∧ (scanMarkers g).2 = some pr.2 ∧
      (pr.1.rev_user_id, pr.2.rev_user_id) ∉ sp := by
  unfold resolveGroup
  split_ifs with hlen
  · constructor
    · intro h; exact absurd h (by simp)
    · rintro ⟨h2, -⟩; exact absurd h2 (by omega)
  · rcases hf : (scanMarkers g).1 with _ | rc <;> rcases hs : (scanMarkers g).2 with _ | uc
    · simp [hf]
    · simp [hf]
    · simp [hs]
    · simp only
      split_ifs with hmem
      · constructor
        · intro h; exact absurd h (by simp)
        · rintro ⟨-, hfe, hse, hnot⟩
          injection hfe with hfe
          injection hse with hse
          rw [← hfe, ← hse] at hnot
          exact absurd hmem hnot
      · constructor
        · intro h
          injection h with h
          subst h
          exact ⟨by omega, rfl, rfl, hmem⟩
        · rintro ⟨-, hfe, hse, -⟩
          injection hfe with hfe
          injection hse with hse
          rw [hfe, hse]

/-- A group in which the scan missed a marker never resolves. -/
theorem resolveGroup_none_of_missing (sp : List (String × String)) (g : List Contact)
    (h : (scanMarkers g).1 = none ∨ (scanMarkers g).2 = none) :
    resolveGroup sp g = none := by
  unfold resolveGroup
  split_ifs with hlen
  · rfl
  · rcases hf : (scanMarkers g).1 with _ | rc <;> rcases hs : (scanMarkers g).2 with _ | uc <;>
      simp_all

/-- Shared soundness of emitted pairs: same lowercased email, the first
component carries exactly the REVU- marker, the second exactly the user_
marker. -/
theorem emitted_pair_markers (sp : List (String × String)) (contacts : List Contact)
    (pr : Contact × Contact) (h : pr ∈ identify_duplicates sp contacts) :
    strLower pr.1.email = strLower pr.2.email ∧
    pr.1.is_revu_contact = true ∧ pr.1.is_user_contact = false ∧
    pr.2.is_user_contact = true ∧ pr.2.is_revu_contact = false := by
  unfold identify_duplicates at h
  obtain ⟨kg, hkg, hr⟩ := List.mem_filterMap.mp h
  obtain ⟨hlen, hf, hs, -⟩ := (resolveGroup_eq_some sp kg.2 pr).mp hr
  obtain ⟨hm1, hrevu1, hm2, huser2, hnrevu2⟩ := scanMarkers_spec kg.2 pr.1 pr.2 hf hs
  have hkey := groupByEmail_wellKeyed contacts
  refine ⟨?_, hrevu1, ?_, huser2, hnrevu2⟩
  · rw [hkey kg hkg pr.1 hm1, hkey kg hkg pr.2 hm2]
  · have hsw : strStartsWith pr.1.external_ref "REVU-" = true :=
      ((Bool.and_eq_true _ _).mp hrevu1).2
    have hnu := startsWith_revu_not_user _ hsw
    unfold Contact.is_user_contact
    simp [hnu]

/-- Against a ledger that contains everything the original ledger contains
plus the ids of every pair resolved against the original ledger, the
resolver emits nothing. -/
theorem identify_duplicates_superset_nil (sp sp2 : List (String × String))
    (contacts : List Contact)
    (hsub : ∀ x ∈ sp, x ∈ sp2)
    (hcov : ∀ pr ∈ identify_duplicates sp contacts,
      (pr.1.rev_user_id, pr.2.rev_user_id) ∈ sp2) :
    identify_duplicates sp2 contacts = [] := by
  unfold identify_duplicates
  rw [List.filterMap_eq_nil_iff]
  intro kg hkg
  cases hr : resolveGroup sp2 kg.2 with
  | none => rfl
  | some pr =>
    exfalso
    obtain ⟨hlen, hf, hs, hnot⟩ := (resolveGroup_eq_some sp2 kg.2 pr).mp hr
    by_cases hmem : (pr.1.rev_user_id, pr.2.rev_user_id) ∈ sp
    · exact hnot (hsub _ hmem)
    · have hsp : resolveGroup sp kg.2 = some pr :=
        (resolveGroup_eq_some sp kg.2 pr).mpr ⟨hlen, hf, hs, hmem⟩
      have hp : pr ∈ identify_duplicates sp contacts := by
        unfold identify_duplicates
        exact List.mem_filterMap.mpr ⟨kg, hkg, hsp⟩
      exact hnot (hcov pr hp)

/-- With both backups and the merge call succeeding, `merge_contacts`
prepends the pair's ids to the ledger. -/
theorem mergeContacts_allok_savepoint (env : ApiEnv) (st : MergeState)
    (p d : Contact) (hb1 : env.backupOk p = true) (hb2 : env.backupOk d = true)
    (hm : env.mergeOk p.rev_user_id d.rev_user_id = true) :
    (mergeContacts env false st p d).st.savepoint =
      (p.rev_user_id, d.rev_user_id) :: st.savepoint := by
  simp [mergeContacts, hb1, hb2, hm]

/-- In an all-succeeding environment, the batch fold only grows the
ledger. -/
theorem foldl_merge_savepoint_sub (env : ApiEnv)
    (hb : ∀ c, env.backupOk c = true) (hm : ∀ a b, env.mergeOk a b = true)
    (ps : List (Contact × Contact)) :
    ∀ (st : MergeState) (x : String × String), x ∈ st.savepoint →
      x ∈ (ps.foldl (fun s pr => (mergeContacts env false s pr.1 pr.2).st) st).savepoint := by
  induction ps with
  | nil => exact fun st x hx => hx
  | cons p ps ih =>
    intro st x hx
    rw [List.foldl_cons]
    apply ih
    rw [mergeContacts_allok_savepoint env st p.1 p.2 (hb p.1) (hb p.2) (hm _ _)]
    exact List.mem_cons_of_mem _ hx

/-- In an all-succeeding environment, the batch fold records the ids of
every processed pair in the ledger. -/
theorem foldl_merge_savepoint_mem (env : ApiEnv)
    (hb : ∀ c, env.backupOk c = true) (hm : ∀ a b, env.mergeOk a b = true)
    (ps : List (Contact × Contact)) :
    ∀ (st : MergeState) (pr : Contact × Contact), pr ∈ ps →
      (pr.1.rev_user_id, pr.2.rev_user_id) ∈
        (ps.foldl (fun s pr => (mergeContacts env false s pr.1 pr.2).st) st).savepoint := by
  induction ps with
  | nil => intro st pr hpr; simp at hpr
  | cons p ps ih =>
    intro st pr hpr
    rw [List.foldl_cons]
    rcases List.mem_cons.mp hpr with hpr | hpr
    · subst hpr
      apply foldl_merge_savepoint_sub env hb hm
      rw [mergeContacts_allok_savepoint env st pr.1 pr.2 (hb pr.1) (hb pr.2) (hm _ _)]
      exact List.mem_cons_self _ _
    · exact ih _ pr hpr

/-- A successful non-preview `merge_contacts` call has reached the final
branch, so the forced `update_external_ref` call was issued with the
primary's id and the duplicate's original external_ref. -/
theorem mergeContacts_ok_updateRef (env : ApiEnv) (st : MergeState) (p d : Contact)
    (hok : (mergeContacts env false st p d).ok = true) :
    (mergeContacts env false st p d).updateRefCall =
      some (p.rev_user_id, d.external_ref) := by
  unfold mergeContacts at hok ⊢
  split_ifs at hok ⊢ <;> simp_all

/-- Counterexample to C1: on the spec's own scenario
(`cA` = id A / ref "user_1", `cB` = id B / ref "REVU-9", same email), the
resolver emits the REVU--marked record `cB` as the first (primary,
surviving) component, not the user_-marked one, and a fully successful
orchestration issues the forced `update_external_ref` with the primary's
id `"B"` and the retiring record's native-style value `"user_1"` — the
opposite role assignment to the one the claim states. -/
theorem authority_direction_counterexample :
    identify_duplicates [] [cA, cB] = [(cB, cA)] ∧
    strStartsWith cB.external_ref "REVU-" = true ∧
    strStartsWith cA.external_ref "user_" = true ∧
    (mergeContacts allOkEnv false st0 cB cA).updateRefCall = some ("B", "user_1") := by
  refine ⟨by decide, by decide, by decide, by decide⟩

/-- C1 (amended): in every resolved pair the record whose identityRef
starts with `REVU-` is the authoritative (primary, surviving) record and
the record whose identityRef starts with `user_` is the retiring one;
after a successful orchestration the authoritative record's identityRef
has been force-updated to the retiring record's original native-style
identityRef value. -/
theorem authority_direction (sp : List (String × String)) (contacts : List Contact)
    (pr : Contact × Contact) (h : pr ∈ identify_duplicates sp contacts)
    (env : ApiEnv) (st : MergeState)
    (hok : (mergeContacts env false st pr.1 pr.2).ok = true) :
    pr.1.is_revu_contact = true ∧ pr.2.is_user_contact = true ∧
    (mergeContacts env false st pr.1 pr.2).updateRefCall =
      some (pr.1.rev_user_id, pr.2.external_ref) := by
  obtain ⟨-, hrevu, -, huser, -⟩ := emitted_pair_markers sp contacts pr h
  exact ⟨hrevu, huser, mergeContacts_ok_updateRef env st pr.1 pr.2 hok⟩

/-- Witness for the amended C1 at the spec scenario: the pair resolves to
`(cB, cA)`, and the all-succeeding orchestration issues the forced
update of `cB`'s identityRef to `"user_1"`. -/
theorem authority_direction_witness :
    cB.is_revu_contact = true ∧ cA.is_user_contact = true ∧
    (mergeContacts allOkEnv false st0 cB cA).updateRefCall = some ("B", "user_1") := by
  have h := authority_direction [] [cA, cB] (cB, cA) (by decide) allOkEnv st0 (by decide)
  exact ⟨h.1, h.2.1, h.2.2⟩

/-- Counterexample to C2: three records share an email, two carry `REVU-`
markers and one a `user_` marker; the claim requires the group to be
skipped with no pair emitted, but the code emits a pair, pairing the
last-seen REVU- record with the user_ record. -/
theorem ambiguous_group_counterexample :
    identify_duplicates [] [cB, cC, cA] = [(cC, cA)] ∧
    cB.is_revu_contact = true ∧ cC.is_revu_contact = true ∧
    cA.is_user_contact = true ∧
    strLower cB.email = strLower cC.email ∧ strLower cC.email = strLower cA.email := by
  refine ⟨by decide, by decide, by decide, by decide, by decide, by decide⟩

/-- C2 (amended): every emitted pair consists of two records with equal
lowercased emails, of which exactly the first carries the `REVU-` marker
and exactly the second the `user_` marker; a group of size ≥ 2 in which a
marker kind is entirely absent is skipped (it resolves to no pair) and
its identity-ref values are logged; a group with several records of one
marker kind is not skipped — the last-seen record of that kind is used. -/
theorem identify_duplicates_sound (sp : List (String × String))
    (contacts : List Contact) :
    (∀ pr ∈ identify_duplicates sp contacts,
      strLower pr.1.email = strLower pr.2.email ∧
      pr.1.is_revu_contact = true ∧ pr.1.is_user_contact = false ∧
      pr.2.is_user_contact = true ∧ pr.2.is_revu_contact = false) ∧
    (∀ kg ∈ groupByEmail contacts, 2 ≤ kg.2.length →
      ((scanMarkers kg.2).1 = none ∨ (scanMarkers kg.2).2 = none) →
      resolveGroup sp kg.2 = none ∧
      (kg.1, kg.2.map (fun c => c.external_ref)) ∈ skipped_groups contacts) := by
  refine ⟨fun pr hpr => emitted_pair_markers sp contacts pr hpr, ?_⟩
  intro kg hkg hlen hnone
  refine ⟨resolveGroup_none_of_missing sp kg.2 hnone, ?_⟩
  unfold skipped_groups
  apply List.mem_filterMap.mpr
  refine ⟨kg, hkg, ?_⟩
  rw [if_neg (by omega)]
  rcases hnone with h | h <;>
    rcases hf : (scanMarkers kg.2).1 with _ | rc <;>
    rcases hs : (scanMarkers kg.2).2 with _ | uc <;> simp_all

/-- Witness for the amended C2: the emitted pair `(cB, cA)` has matching
emails and exactly one marker of each kind, and the marker-less group
`[cN1, cN2]` resolves to nothing and appears in the skip log with its
(empty) identity-ref values. -/
theorem identify_duplicates_sound_witness :
    (strLower cB.email = strLower cA.email ∧
     cB.is_revu_contact = true ∧ cB.is_user_contact = false ∧
     cA.is_user_contact = true ∧ cA.is_revu_contact = false) ∧
    (resolveGroup [] [cN1, cN2] = none ∧
     ("n@n", ["", ""]) ∈ skipped_groups [cA, cB, cN1, cN2]) := by
  have h := identify_duplicates_sound [] [cA, cB, cN1, cN2]
  exact ⟨h.1 (cB, cA) (by decide),
    h.2 ("n@n", [cN1, cN2]) (by decide) (by decide) (by decide)⟩

/-- C5: a pair emitted by the resolver is never one whose id pair was
already in the Progress Ledger at the start of the run; equivalently, a
ledger entry `(a, b)` is never re-emitted. -/
theorem ledger_pair_not_reemitted (sp : List (String × String))
    (contacts : List Contact) (pr : Contact × Contact)
    (h : pr ∈ identify_duplicates sp contacts) :
    (pr.1.rev_user_id, pr.2.rev_user_id) ∉ sp := by
  unfold identify_duplicates at h
  obtain ⟨kg, hkg, hr⟩ := List.mem_filterMap.mp h
  exact ((resolveGroup_eq_some sp kg.2 pr).mp hr).2.2.2

/-- Witness for C5: with an unrelated entry in the ledger, the emitted
pair `(cB, cA)` has an id pair absent from the ledger. -/
theorem ledger_pair_not_reemitted_witness :
    ((cB, cA).1.rev_user_id, (cB, cA).2.rev_user_id) ∉
      ([("X", "Y")] : List (String × String)) :=
  ledger_pair_not_reemitted [("X", "Y")] [cA, cB] (cB, cA) (by decide)

/-- C6: after a full non-preview batch in which every remote call needed
for success succeeds, re-resolving the same input against the persisted
ledger yields no pairs, so a second run makes zero merge attempts. -/
theorem second_run_no_attempts (env : ApiEnv) (st : MergeState)
    (contacts : List Contact)
    (hb : ∀ c, env.backupOk c = true) (hm : ∀ a b, env.mergeOk a b = true) :
    identify_duplicates (runBatch env st contacts).savepoint contacts = [] := by
  unfold runBatch
  apply identify_duplicates_superset_nil st.savepoint
  · exact fun x hx => foldl_merge_savepoint_sub env hb hm _ st x hx
  · exact fun pr hpr => foldl_merge_savepoint_mem env hb hm _ st pr hpr

/-- Witness for C6: on the spec scenario, the first run processes the one
resolved pair, and the second resolution emits nothing. -/
theorem second_run_no_attempts_witness :
    identify_duplicates [] [cA, cB] = [(cB, cA)] ∧
    identify_duplicates (runBatch allOkEnv st0 [cA, cB]).savepoint [cA, cB] = [] :=
  ⟨by decide,
    second_run_no_attempts allOkEnv st0 [cA, cB] (fun _ => rfl) (fun _ _ => rfl)⟩

